import Mathlib

/-!
Shallow embedding of the EyeLearn-Env real-time gateway core
(`src/python_services/web_stream_service.py` and
`src/python_services/fastapi_service.py`), together with theorems settling
the frozen claims about the connection registry, broadcast protocol, rate
limiter, frame ingestion pipeline and lifecycle orchestration.

Modelling conventions:
* Python floats (time stamps, allowances) are modelled as rationals `ℚ`;
  the claims are about the arithmetic the code performs, not IEEE rounding.
* The wall clock (`time.monotonic()`) is passed in explicitly: each call
  that reads the clock takes the current instant as an argument.
* External libraries (base64, cv2, the eye-tracking engine) are modelled by
  an oracle record `FrameEnv`; the code under verification only branches on
  their results, which the oracle supplies.
* Fallible Python code (raised `HTTPException`s) is modelled with
  `Except Err`; handlers additionally return the list of pipeline `Step`s
  they performed, in execution order, so that claims of the form
  "X never runs / X runs before Y" are directly statable.
-/

/-! ## WebSocketLimiter (web_stream_service.py, lines 191-209)

Token bucket per client.  The constructor takes `max_fps` and reads the
clock; `consume` reads the clock again and updates the bucket. -/

structure WebSocketLimiter where
  max_fps : ℚ
  allowance : ℚ
  last_check : ℚ
  deriving DecidableEq

/-- Embeds `WebSocketLimiter.__init__`: `allowance` starts at `max_fps`,
`last_check` at the current monotonic instant `now`. -/
def WebSocketLimiter.init (max_fps : ℚ) (now : ℚ) : WebSocketLimiter :=
  { max_fps := max_fps, allowance := max_fps, last_check := now }

/-- Embeds `WebSocketLimiter.consume` (lines 199-209): accumulate
`time_passed * max_fps`, clamp to `max_fps`, then either deny
(`allowance < 1.0`) or decrement by one and allow.  `current` is the value
`time.monotonic()` returns during this call. -/
def WebSocketLimiter.consume (l : WebSocketLimiter) (current : ℚ) :
    Bool × WebSocketLimiter :=
  let time_passed := current - l.last_check
  let a1 := l.allowance + time_passed * l.max_fps
  let a2 := if a1 > l.max_fps then l.max_fps else a1
  if a2 < 1 then
    (false, { max_fps := l.max_fps, allowance := a2, last_check := current })
  else
    (true, { max_fps := l.max_fps, allowance := a2 - 1, last_check := current })

/-- Runs the limiter through a list of inter-call delays: each entry `dt`
is the elapsed time between the previous call and this one. -/
def runLimiter (l : WebSocketLimiter) : List ℚ → WebSocketLimiter
  | [] => l
  | dt :: rest => runLimiter ((l.consume (l.last_check + dt)).2) rest

/-- Performs `k` consecutive `consume` calls all at the same instant
`current` (zero elapsed time between them), collecting the results. -/
def consumeN (l : WebSocketLimiter) (current : ℚ) : ℕ → List Bool × WebSocketLimiter
  | 0 => ([], l)
  | k + 1 =>
    let r := l.consume current
    let rest := consumeN r.2 current k
    (r.1 :: rest.1, rest.2)

/-- A closed form for `consume`, shared by the proofs below: the clamping
conditional is rewritten as `min`, and the deny test `< 1` as `¬ 1 ≤ _`. -/
lemma consume_eq (l : WebSocketLimiter) (current : ℚ) :
    l.consume current =
      (let acc := min (l.allowance + (current - l.last_check) * l.max_fps) l.max_fps
       if 1 ≤ acc then
         (true, { max_fps := l.max_fps, allowance := acc - 1, last_check := current })
       else
         (false, { max_fps := l.max_fps, allowance := acc, last_check := current })) := by
  unfold WebSocketLimiter.consume
  have hmin : (if l.allowance + (current - l.last_check) * l.max_fps > l.max_fps then
      l.max_fps else l.allowance + (current - l.last_check) * l.max_fps)
      = min (l.allowance + (current - l.last_check) * l.max_fps) l.max_fps := by
    split
    · rename_i h
      exact (min_eq_right (le_of_lt h)).symm
    · rename_i h
      exact (min_eq_left (le_of_not_lt h)).symm
  simp only [hmin]
  by_cases h1 : min (l.allowance + (current - l.last_check) * l.max_fps) l.max_fps < 1
  · rw [if_pos h1, if_neg (by exact not_le_of_lt h1)]
  · rw [if_neg h1, if_pos (le_of_not_lt h1)]

/-- C2: `consume` accumulates `elapsed * max_rate` into the allowance,
clamps it to at most `max_rate`, then allows (decrementing by exactly 1)
iff the clamped allowance is at least 1, denying with no further state
change otherwise. -/
theorem consume_step_spec (l : WebSocketLimiter) (current : ℚ)
    (hpos : 0 < l.max_fps) :
    l.consume current =
      (let acc := min (l.allowance + (current - l.last_check) * l.max_fps) l.max_fps
       if 1 ≤ acc then
         (true, { max_fps := l.max_fps, allowance := acc - 1, last_check := current })
       else
         (false, { max_fps := l.max_fps, allowance := acc, last_check := current })) :=
  consume_eq l current

/-- C2 witness at a concrete input. -/
theorem consume_step_spec_witness :
    0 < (WebSocketLimiter.init 5 0).max_fps ∧
    (WebSocketLimiter.init 5 0).consume 1 =
      (let acc := min ((WebSocketLimiter.init 5 0).allowance
          + (1 - (WebSocketLimiter.init 5 0).last_check) * (WebSocketLimiter.init 5 0).max_fps)
          (WebSocketLimiter.init 5 0).max_fps
       if 1 ≤ acc then
         (true, { max_fps := (WebSocketLimiter.init 5 0).max_fps, allowance := acc - 1,
                  last_check := 1 })
       else
         (false, { max_fps := (WebSocketLimiter.init 5 0).max_fps, allowance := acc,
                   last_check := 1 })) :=
  ⟨by norm_num [WebSocketLimiter.init],
   consume_step_spec (WebSocketLimiter.init 5 0) 1 (by norm_num [WebSocketLimiter.init])⟩

/-- One `consume` call keeps the allowance in `[0, max_fps]` and leaves
`max_fps` unchanged, provided the elapsed time is non-negative. -/
lemma consume_bounds (l : WebSocketLimiter) (current : ℚ)
    (hpos : 0 < l.max_fps) (h0 : 0 ≤ l.allowance) (hel : l.last_check ≤ current) :
    (l.consume current).2.max_fps = l.max_fps ∧
    0 ≤ (l.consume current).2.allowance ∧
    (l.consume current).2.allowance ≤ l.max_fps := by
  rw [consume_eq]
  have haccnn : 0 ≤ min (l.allowance + (current - l.last_check) * l.max_fps) l.max_fps := by
    apply le_min
    · have : 0 ≤ (current - l.last_check) * l.max_fps :=
        mul_nonneg (by linarith) (le_of_lt hpos)
      linarith
    · exact le_of_lt hpos
  have haccle : min (l.allowance + (current - l.last_check) * l.max_fps) l.max_fps
      ≤ l.max_fps := min_le_right _ _
  by_cases hge : 1 ≤ min (l.allowance + (current - l.last_check) * l.max_fps) l.max_fps
  · simp only [hge, if_true]
    refine ⟨by trivial, by linarith, by linarith⟩
  · simp only [hge, if_false]
    exact ⟨by trivial, haccnn, haccle⟩

/-- Any run of `consume` calls with non-negative inter-call delays keeps
the allowance in `[0, max_fps]`. -/
lemma runLimiter_bounds (m : ℚ) (hm : 0 < m) :
    ∀ (dts : List ℚ), (∀ dt ∈ dts, 0 ≤ dt) → ∀ (l : WebSocketLimiter),
      l.max_fps = m → 0 ≤ l.allowance → l.allowance ≤ m →
      (runLimiter l dts).max_fps = m ∧ 0 ≤ (runLimiter l dts).allowance ∧
      (runLimiter l dts).allowance ≤ m := by
  intro dts
  induction dts with
  | nil => intro _ l hmax h0 h1; exact ⟨hmax, h0, h1⟩
  | cons dt rest ih =>
    intro hnn l hmax h0 h1
    have hdt : 0 ≤ dt := hnn dt (List.mem_cons_self _ _)
    have hstep := consume_bounds l (l.last_check + dt)
      (hmax ▸ hm) h0 (by linarith)
    rw [runLimiter]
    exact ih (fun x hx => hnn x (List.mem_cons_of_mem _ hx))
      ((l.consume (l.last_check + dt)).2) (hmax ▸ hstep.1) hstep.2.1
      (hmax ▸ hstep.2.2)

/-- C3: starting from a fresh limiter with strictly positive `max_fps`,
after every `consume` call of an arbitrary run (non-negative elapsed time
between calls) the allowance lies in `[0, max_fps]`.  The state after the
first `k` calls is `runLimiter (init m t0) (dts.take k)`. -/
theorem allowance_in_range (m t0 : ℚ) (hm : 0 < m) (dts : List ℚ)
    (hdts : ∀ dt ∈ dts, 0 ≤ dt) (k : ℕ) :
    0 ≤ (runLimiter (WebSocketLimiter.init m t0) (dts.take k)).allowance ∧
    (runLimiter (WebSocketLimiter.init m t0) (dts.take k)).allowance ≤ m := by
  have h := runLimiter_bounds m hm (dts.take k)
    (fun dt hdt => hdts dt (List.take_subset k dts hdt))
    (WebSocketLimiter.init m t0) rfl (le_of_lt hm) (le_refl m)
  exact ⟨h.2.1, h.2.2⟩

/-- C3 witness at a concrete run. -/
theorem allowance_in_range_witness :
    ((0 : ℚ) < 2 ∧ ∀ dt ∈ [(0 : ℚ), 1/2, 3], 0 ≤ dt) ∧
    (0 ≤ (runLimiter (WebSocketLimiter.init 2 0) ([(0 : ℚ), 1/2, 3].take 2)).allowance ∧
     (runLimiter (WebSocketLimiter.init 2 0) ([(0 : ℚ), 1/2, 3].take 2)).allowance ≤ 2) :=
  ⟨⟨by norm_num, by intro dt hdt; fin_cases hdt <;> norm_num⟩,
   allowance_in_range 2 0 (by norm_num) [0, 1/2, 3]
     (by intro dt hdt; fin_cases hdt <;> norm_num) 2⟩

/-- `consume` in the deny case, as a plain equation. -/
lemma consume_deny (l : WebSocketLimiter) (current : ℚ)
    (h : ¬ 1 ≤ min (l.allowance + (current - l.last_check) * l.max_fps) l.max_fps) :
    l.consume current =
      (false, { max_fps := l.max_fps,
                allowance := min (l.allowance + (current - l.last_check) * l.max_fps) l.max_fps,
                last_check := current }) := by
  rw [consume_eq]
  simp only [if_neg h]

/-- `consume` in the allow case, as a plain equation. -/
lemma consume_allow (l : WebSocketLimiter) (current : ℚ)
    (h : 1 ≤ min (l.allowance + (current - l.last_check) * l.max_fps) l.max_fps) :
    l.consume current =
      (true, { max_fps := l.max_fps,
               allowance := min (l.allowance + (current - l.last_check) * l.max_fps) l.max_fps - 1,
               last_check := current }) := by
  rw [consume_eq]
  simp only [if_pos h]

/-- A zero-elapsed `consume` on an integral allowance `j` with
`1 ≤ j ≤ max_fps = n` allows and leaves allowance `j - 1`. -/
lemma consume_zero_elapsed (n j : ℕ) (t : ℚ) (hj : 1 ≤ j) (hjn : j ≤ n) :
    WebSocketLimiter.consume ⟨(n : ℚ), (j : ℚ), t⟩ t =
      (true, ⟨(n : ℚ), ((j - 1 : ℕ) : ℚ), t⟩) := by
  rw [consume_eq]
  have hjn' : (j : ℚ) ≤ (n : ℚ) := by exact_mod_cast hjn
  have hj' : (1 : ℚ) ≤ (j : ℚ) := by exact_mod_cast hj
  have hacc : min ((j : ℚ) + (t - t) * (n : ℚ)) (n : ℚ) = (j : ℚ) := by
    rw [sub_self, zero_mul, add_zero]
    exact min_eq_left hjn'
  simp only [hacc, hj', if_true]
  have : ((j - 1 : ℕ) : ℚ) = (j : ℚ) - 1 := by
    push_cast [Nat.cast_sub hj]
    ring
  rw [this]

/-- Draining the bucket: `k ≤ j` zero-elapsed calls on integral allowance
`j ≤ n` all allow, leaving allowance `j - k`. -/
lemma consumeN_drain (n : ℕ) (t : ℚ) :
    ∀ (k j : ℕ), k ≤ j → j ≤ n →
      consumeN ⟨(n : ℚ), (j : ℚ), t⟩ t k =
        (List.replicate k true, ⟨(n : ℚ), ((j - k : ℕ) : ℚ), t⟩) := by
  intro k
  induction k with
  | zero => intro j _ _; simp [consumeN]
  | succ k ih =>
    intro j hk hjn
    have hj1 : 1 ≤ j := le_trans (Nat.succ_le_succ (Nat.zero_le k)) hk
    rw [consumeN]
    simp only [consume_zero_elapsed n j t hj1 hjn]
    rw [ih (j - 1) (by omega) (by omega)]
    have : j - 1 - k = j - (k + 1) := by omega
    rw [this, List.replicate_succ]

/-- C9: a fresh limiter with integer `max_rate = n ≥ 1` allows `n`
immediate calls, denies the next immediate call, and after any denial a
call made at least `1/n` seconds later allows again. -/
theorem limiter_burst_and_recovery (n : ℕ) (hn : 1 ≤ n) (t : ℚ) :
    ((consumeN (WebSocketLimiter.init (n : ℚ) t) t n).1 = List.replicate n true ∧
     ((consumeN (WebSocketLimiter.init (n : ℚ) t) t n).2.consume t).1 = false) ∧
    (∀ (l : WebSocketLimiter) (c c' : ℚ), l.max_fps = (n : ℚ) →
      0 ≤ l.allowance → l.last_check ≤ c →
      (l.consume c).1 = false → 1 / (n : ℚ) ≤ c' - c →
      (((l.consume c).2).consume c').1 = true) := by
  have hn' : (1 : ℚ) ≤ (n : ℚ) := by exact_mod_cast hn
  have hnpos : (0 : ℚ) < (n : ℚ) := by linarith
  constructor
  · have hdrain := consumeN_drain n t n n (le_refl n) (le_refl n)
    have hinit : WebSocketLimiter.init (n : ℚ) t = ⟨(n : ℚ), (n : ℚ), t⟩ := rfl
    rw [hinit, hdrain]
    refine ⟨rfl, ?_⟩
    have : ((n - n : ℕ) : ℚ) = 0 := by
      rw [Nat.sub_self]; exact Nat.cast_zero
    rw [this, consume_eq]
    have hacc : min ((0 : ℚ) + (t - t) * (n : ℚ)) (n : ℚ) = 0 := by
      rw [sub_self, zero_mul, add_zero]
      exact min_eq_left (le_of_lt hnpos)
    simp only [hacc]
    rw [if_neg (by norm_num)]
  · intro l c c' hmax h0 hlc hdeny hwait
    set acc1 := min (l.allowance + (c - l.last_check) * l.max_fps) l.max_fps with hacc1
    by_cases hge : 1 ≤ acc1
    · rw [consume_allow l c hge] at hdeny
      simp at hdeny
    · rw [consume_deny l c hge]
      have hacc1nn : 0 ≤ acc1 := by
        rw [hacc1]
        apply le_min
        · have : 0 ≤ (c - l.last_check) * l.max_fps := by
            apply mul_nonneg (by linarith)
            rw [hmax]; exact le_of_lt hnpos
          linarith
        · rw [hmax]; exact le_of_lt hnpos
      have hgain : (1 : ℚ) ≤ (c' - c) * (n : ℚ) := by
        have := mul_le_mul_of_nonneg_right hwait (le_of_lt hnpos)
        rw [one_div, inv_mul_cancel₀ (ne_of_gt hnpos)] at this
        linarith
      have hge2 : 1 ≤ min (acc1 + (c' - c) * l.max_fps) l.max_fps := by
        rw [hmax]
        apply le_min
        · linarith
        · exact hn'
      rw [consume_allow
        { max_fps := l.max_fps, allowance := acc1, last_check := c } c' hge2]

/-- C9 witness: `n = 2`, concrete limiter and instants; the recovery
branch is exercised at `l = ⟨2, 0, 0⟩`, `c = 0`, `c' = 1/2`. -/
theorem limiter_burst_and_recovery_witness :
    (1 ≤ 2 ∧
     (((consumeN (WebSocketLimiter.init (2 : ℚ) 0) 0 2).1 = List.replicate 2 true ∧
       ((consumeN (WebSocketLimiter.init (2 : ℚ) 0) 0 2).2.consume 0).1 = false) ∧
      (∀ (l : WebSocketLimiter) (c c' : ℚ), l.max_fps = ((2 : ℕ) : ℚ) →
        0 ≤ l.allowance → l.last_check ≤ c →
        (l.consume c).1 = false → 1 / ((2 : ℕ) : ℚ) ≤ c' - c →
        (((l.consume c).2).consume c').1 = true))) ∧
    (WebSocketLimiter.consume ⟨((2 : ℕ) : ℚ), 0, 0⟩ 0).1 = false ∧
    (((WebSocketLimiter.consume ⟨((2 : ℕ) : ℚ), 0, 0⟩ 0).2).consume (1/2)).1 = true := by
  have h := limiter_burst_and_recovery 2 (by norm_num) 0
  have hdeny : (WebSocketLimiter.consume ⟨((2 : ℕ) : ℚ), 0, 0⟩ 0).1 = false := by
    rw [consume_deny _ _ (by norm_num)]
  refine ⟨⟨by norm_num, by exact_mod_cast h⟩, hdeny, ?_⟩
  exact h.2 ⟨((2 : ℕ) : ℚ), 0, 0⟩ 0 (1/2) rfl (le_refl 0) (le_refl 0)
    hdeny (by norm_num)

/-! ## ConnectionManager (fastapi_service.py, lines 45-81)

WebSocket handles are modelled as naturals.  `active_connections` is a
Python list, so the embedding keeps a `List` (order and multiplicity
matter: `connect` appends, Python `list.remove` drops the first
occurrence).  Delivery failure of `send_json` is modelled by a predicate
`fails` on connections; `broadcast` is total (every exception inside the
delivery loop is caught in the source), returning the list of connections
that received the message and the post-broadcast manager. -/

abbrev Conn := ℕ

structure ConnectionManager where
  active_connections : List Conn
  deriving DecidableEq

/-- Embeds `ConnectionManager.connect` (lines 52-57): after the handshake
(`websocket.accept()`), the connection is appended to the list — with no
membership check. -/
def ConnectionManager.connect (m : ConnectionManager) (ws : Conn) : ConnectionManager :=
  { active_connections := m.active_connections ++ [ws] }

/-- Embeds `ConnectionManager.disconnect` (lines 59-63): `list.remove`
drops the first occurrence, guarded by a membership test. -/
def ConnectionManager.disconnect (m : ConnectionManager) (ws : Conn) : ConnectionManager :=
  if ws ∈ m.active_connections then
    { active_connections := m.active_connections.erase ws }
  else m

/-- The delivery loop of `broadcast` (lines 70-77): walk the registered
connections in order; a successful send goes to `delivered`, a failing one
to `disconnected`.  The iterated list is fixed before the loop starts. -/
def broadcastLoop (fails : Conn → Bool) : List Conn → List Conn × List Conn
  | [] => ([], [])
  | c :: rest =>
    let r := broadcastLoop fails rest
    if fails c then (r.1, c :: r.2) else (c :: r.1, r.2)

/-- Embeds `ConnectionManager.broadcast` (lines 65-81): early return on an
empty registry, one full delivery pass, then removal of the failed
connections via `disconnect`, after the pass. -/
def ConnectionManager.broadcast (m : ConnectionManager) (fails : Conn → Bool) :
    List Conn × ConnectionManager :=
  if m.active_connections = [] then ([], m)
  else
    let r := broadcastLoop fails m.active_connections
    (r.1, r.2.foldl (fun acc c => acc.disconnect c) m)

lemma broadcastLoop_eq_filter (fails : Conn → Bool) (l : List Conn) :
    broadcastLoop fails l = (l.filter (fun c => !(fails c)), l.filter fails) := by
  induction l with
  | nil => rfl
  | cons c rest ih =>
    rw [broadcastLoop, ih]
    by_cases h : fails c = true
    · simp [h, List.filter_cons]
    · simp at h
      simp [h, List.filter_cons]

/-- Whatever `broadcast` delivers was registered when it started. -/
lemma broadcast_delivers_subset (m : ConnectionManager) (fails : Conn → Bool) :
    ∀ d ∈ (m.broadcast fails).1, d ∈ m.active_connections := by
  unfold ConnectionManager.broadcast
  by_cases hemp : m.active_connections = []
  · simp [hemp]
  · rw [if_neg hemp]
    intro d hd
    rw [broadcastLoop_eq_filter] at hd
    exact List.mem_of_mem_filter hd

/-- On a duplicate-free list where exactly the element `c` satisfies
`fails`, filtering by `fails` yields `[c]`. -/
lemma filter_eq_singleton_of_unique (fails : Conn → Bool) (c : Conn) :
    ∀ (l : List Conn), l.Nodup → c ∈ l → (∀ d ∈ l, (fails d = true ↔ d = c)) →
      l.filter fails = [c] := by
  intro l
  induction l with
  | nil => intro _ hc; exact absurd hc (List.not_mem_nil c)
  | cons a t ih =>
    intro hnd hc hf
    have hat : a ∉ t := (List.nodup_cons.mp hnd).1
    have htnd : t.Nodup := (List.nodup_cons.mp hnd).2
    rcases List.mem_cons.mp hc with hca | hct
    · have hfa : fails a = true := (hf a (List.mem_cons_self a t)).mpr hca.symm
      have htnil : t.filter fails = [] := by
        rw [List.filter_eq_nil_iff]
        intro d hd hfd
        have hdc := (hf d (List.mem_cons_of_mem a hd)).mp hfd
        rw [hdc, hca] at hd
        exact hat hd
      rw [List.filter_cons_of_pos hfa, htnil, hca]
    · have hac : a ≠ c := by
        intro h; subst h; exact hat hct
      have hfa : fails a = false := by
        by_cases h : fails a = true
        · exact absurd ((hf a (List.mem_cons_self a t)).mp h) hac
        · simpa using h
      rw [List.filter_cons_of_neg (by simp [hfa])]
      exact ih htnd hct (fun d hd => hf d (List.mem_cons_of_mem a hd))

/-- C1: in a broadcast over a duplicate-free registry where delivery fails
on exactly one registered connection `c`: the delivery pass iterates the
pre-broadcast registry (so its result equals a filter of that fixed list),
every other registered connection receives the message, `c` receives
nothing, and — after the pass — `c` is removed from the registry while
everyone else stays.  `broadcast` is total, so no failure escapes to the
caller. -/
theorem broadcast_isolates_failed_connection (m : ConnectionManager)
    (fails : Conn → Bool) (c : Conn)
    (hnd : m.active_connections.Nodup) (hc : c ∈ m.active_connections)
    (hfail : ∀ d ∈ m.active_connections, (fails d = true ↔ d = c)) :
    (m.broadcast fails).1 = m.active_connections.filter (fun d => !(fails d)) ∧
    (∀ d ∈ m.active_connections, d ≠ c → d ∈ (m.broadcast fails).1) ∧
    c ∉ (m.broadcast fails).1 ∧
    c ∉ (m.broadcast fails).2.active_connections ∧
    (∀ d ∈ m.active_connections, d ≠ c → d ∈ (m.broadcast fails).2.active_connections) := by
  have hemp : m.active_connections ≠ [] := by
    intro h; rw [h] at hc; exact List.not_mem_nil c hc
  have hfc : fails c = true := (hfail c hc).mpr rfl
  have hsingle : m.active_connections.filter fails = [c] :=
    filter_eq_singleton_of_unique fails c m.active_connections hnd hc hfail
  have hbr : m.broadcast fails =
      (m.active_connections.filter (fun d => !(fails d)),
       ConnectionManager.mk (m.active_connections.erase c)) := by
    unfold ConnectionManager.broadcast
    rw [if_neg hemp, broadcastLoop_eq_filter]
    simp only [hsingle, List.foldl]
    unfold ConnectionManager.disconnect
    rw [if_pos hc]
  rw [hbr]
  refine ⟨rfl, ?_, ?_, ?_, ?_⟩
  · intro d hd hdc
    apply List.mem_filter.mpr
    refine ⟨hd, ?_⟩
    have : fails d = false := by
      by_cases h : fails d = true
      · exact absurd ((hfail d hd).mp h) hdc
      · simpa using h
    simp [this]
  · intro hmem
    have := (List.mem_filter.mp hmem).2
    simp [hfc] at this
  · intro hmem
    exact absurd rfl (hnd.mem_erase_iff.mp hmem).1
  · intro d hd hdc
    exact hnd.mem_erase_iff.mpr ⟨hdc, hd⟩

/-- C1 witness: registry `[0, 1, 2]`, delivery fails exactly on `1`. -/
theorem broadcast_isolates_failed_connection_witness :
    ((([0, 1, 2] : List Conn).Nodup ∧ (1 : Conn) ∈ ([0, 1, 2] : List Conn)) ∧
      ∀ d ∈ ([0, 1, 2] : List Conn), (((d == 1) = true) ↔ d = 1)) ∧
    ((ConnectionManager.mk [0, 1, 2]).broadcast (fun d => d == 1)).1
        = ([0, 1, 2] : List Conn).filter (fun d => !(d == 1)) ∧
    (∀ d ∈ (ConnectionManager.mk [0, 1, 2]).active_connections, d ≠ 1 →
      d ∈ ((ConnectionManager.mk [0, 1, 2]).broadcast (fun d => d == 1)).1) ∧
    (1 : Conn) ∉ ((ConnectionManager.mk [0, 1, 2]).broadcast (fun d => d == 1)).1 ∧
    (1 : Conn) ∉ ((ConnectionManager.mk [0, 1, 2]).broadcast
        (fun d => d == 1)).2.active_connections ∧
    (∀ d ∈ (ConnectionManager.mk [0, 1, 2]).active_connections, d ≠ 1 →
      d ∈ ((ConnectionManager.mk [0, 1, 2]).broadcast (fun d => d == 1)).2.active_connections) :=
  ⟨⟨⟨by decide, by decide⟩, by decide⟩,
   broadcast_isolates_failed_connection (ConnectionManager.mk [0, 1, 2])
     (fun d => d == 1) 1 (by decide) (by decide) (by decide)⟩

/-! ## Register/unregister sequences (claim C7) -/

/-- An abstract registry operation: a client connects or disconnects. -/
inductive RegOp
  | reg (c : Conn)
  | unreg (c : Conn)
  deriving DecidableEq

/-- Applies a sequence of registry operations. -/
def applyOps (m : ConnectionManager) : List RegOp → ConnectionManager
  | [] => m
  | RegOp.reg c :: ops => applyOps (m.connect c) ops
  | RegOp.unreg c :: ops => applyOps (m.disconnect c) ops

/-- Side condition on a sequence: a connection is only registered while it
is absent from the registry (no double-registration of a live channel). -/
def freshRegs (m : ConnectionManager) : List RegOp → Bool
  | [] => true
  | RegOp.reg c :: ops =>
    decide (c ∉ m.active_connections) && freshRegs (m.connect c) ops
  | RegOp.unreg c :: ops => freshRegs (m.disconnect c) ops

lemma disconnect_nodup (m : ConnectionManager) (c : Conn)
    (h : m.active_connections.Nodup) :
    (m.disconnect c).active_connections.Nodup := by
  unfold ConnectionManager.disconnect
  split
  · exact h.erase c
  · exact h

lemma connect_nodup (m : ConnectionManager) (c : Conn)
    (h : m.active_connections.Nodup) (hc : c ∉ m.active_connections) :
    (m.connect c).active_connections.Nodup := by
  unfold ConnectionManager.connect
  rw [List.nodup_append]
  refine ⟨h, List.nodup_singleton c, ?_⟩
  intro a ha hb
  rw [List.mem_singleton] at hb
  subst hb
  exact hc ha

/-- C7 counterexample: registering the same connection twice is not
idempotent — starting from an empty registry, two `connect 0` calls leave
two entries for connection `0`. -/
theorem connect_not_idempotent :
    (((ConnectionManager.mk []).connect 0).connect 0).active_connections = [0, 0] ∧
    (((ConnectionManager.mk []).connect 0).connect 0).active_connections.count 0 = 2 := by
  constructor
  · rfl
  · rfl

/-- C7 (amended): `connect` appends unconditionally, so idempotence only
holds under the side condition that a connection is registered only while
absent; under that condition the registry never holds two entries for one
connection, and a broadcast only ever delivers to currently registered
connections (hence never to one that has been unregistered). -/
theorem registry_nodup_and_delivery (ops : List RegOp) (m : ConnectionManager)
    (h0 : m.active_connections.Nodup) (hfresh : freshRegs m ops = true) :
    (applyOps m ops).active_connections.Nodup ∧
    ∀ (fails : Conn → Bool), ∀ d ∈ ((applyOps m ops).broadcast fails).1,
      d ∈ (applyOps m ops).active_connections := by
  refine ⟨?_, fun fails => broadcast_delivers_subset (applyOps m ops) fails⟩
  induction ops generalizing m with
  | nil => exact h0
  | cons op rest ih =>
    cases op with
    | reg c =>
      rw [freshRegs, Bool.and_eq_true, decide_eq_true_iff] at hfresh
      exact ih (m.connect c) (connect_nodup m c h0 hfresh.1) hfresh.2
    | unreg c =>
      rw [freshRegs] at hfresh
      exact ih (m.disconnect c) (disconnect_nodup m c h0) hfresh

/-- C7 witness: `reg 0, reg 1, unreg 0, reg 0` is a fresh sequence from
the empty registry. -/
theorem registry_nodup_and_delivery_witness :
    (([] : List Conn).Nodup ∧
      freshRegs (ConnectionManager.mk [])
        [RegOp.reg 0, RegOp.reg 1, RegOp.unreg 0, RegOp.reg 0] = true) ∧
    ((applyOps (ConnectionManager.mk [])
        [RegOp.reg 0, RegOp.reg 1, RegOp.unreg 0, RegOp.reg 0]).active_connections.Nodup ∧
     ∀ (fails : Conn → Bool), ∀ d ∈ ((applyOps (ConnectionManager.mk [])
        [RegOp.reg 0, RegOp.reg 1, RegOp.unreg 0, RegOp.reg 0]).broadcast fails).1,
       d ∈ (applyOps (ConnectionManager.mk [])
        [RegOp.reg 0, RegOp.reg 1, RegOp.unreg 0, RegOp.reg 0]).active_connections) :=
  ⟨⟨by decide, by decide⟩,
   registry_nodup_and_delivery [RegOp.reg 0, RegOp.reg 1, RegOp.unreg 0, RegOp.reg 0]
     (ConnectionManager.mk []) (by decide) (by decide)⟩

/-! ## Frame ingestion pipeline (web_stream_service.py lines 107-235,
fastapi_service.py lines 478-530)

`FrameEnv` is the oracle for the external libraries: `rawLen` gives the
byte length of `base64.b64decode` applied to the part of the data URL
after the comma, `imdecodeOk` tells whether `cv2.imdecode` succeeds on
those bytes, and the `engine*` fields supply the result of
`process_remote_frame` (the external engine, out of scope).  Every
handler also returns the ordered list of pipeline `Step`s it performed,
so ordering/absence claims are statable. -/

/-- The observable work items of the ingestion pipeline. -/
inductive Step
  | streamingCheck
  | fieldValidation
  | sizeCheck
  | imageDecode
  | dispatch
  | limiterCheck
  deriving DecidableEq

structure Config where
  browser_streaming_enabled : Bool
  max_frame_kb : ℕ
  deriving DecidableEq

structure FrameEnv where
  rawLen : String → ℕ
  imdecodeOk : String → Bool
  engineStatus : String
  engineMetrics : Option String
  engineFrame : String

/-- Incoming payload (`FramePayload` pydantic model, web_stream_service.py
lines 107-122 and fastapi_service.py lines 125-139).  `user_id`,
`module_id`, `section_id` are optional; `none` is Python `None`. -/
structure FramePayload where
  frame_id : String
  user_id : Option String
  module_id : Option String
  section_id : Option String
  timestamp : ℚ
  frame_base64 : String
  deriving DecidableEq

/-- Python truthiness test `not x` on an optional string: `None` and the
empty string are falsy. -/
def pyFalsy : Option String → Bool
  | none => true
  | some s => s.isEmpty

/-- Python `a or b` on optional strings: yields `b` when `a` is falsy. -/
def pyOrStr (a b : Option String) : Option String :=
  if pyFalsy a then b else a

/-- An HTTPException: status code and detail string. -/
structure Err where
  status_code : ℕ
  detail : String
  deriving DecidableEq

/-- The success envelope assembled by the handlers. -/
structure FrameResponse where
  success : Bool
  frame_id : String
  user_id : Option String
  module_id : Option String
  section_id : Option String
  timestamp : ℚ
  status : String
  metrics : Option String
  current_frame : String
  deriving DecidableEq

/-- Embeds `decode_frame` (web_stream_service.py lines 125-144): the raw
byte length of the decoded payload is checked against
`max_frame_kb * 1024` BEFORE `cv2.imdecode` is attempted; an oversize
frame raises 413 and no raster buffer is produced.  A `cv2.imdecode`
failure is an error after the decode attempt. -/
def decode_frame (cfg : Config) (env : FrameEnv) (data_url : String) :
    Except Err Unit × List Step :=
  let raw_len := env.rawLen data_url
  let max_bytes := cfg.max_frame_kb * 1024
  if raw_len > max_bytes then
    (Except.error ⟨413, "Frame exceeds size limit"⟩, [Step.sizeCheck])
  else if env.imdecodeOk data_url then
    (Except.ok (), [Step.sizeCheck, Step.imageDecode])
  else
    (Except.error ⟨500, "cv2.imdecode returned None"⟩, [Step.sizeCheck, Step.imageDecode])

/-- Embeds `process_frame` (web_stream_service.py lines 147-179): the
`browser_streaming_enabled` gate (503) comes first, then the
`user_id`/`module_id` presence check (400), then `decode_frame`, then the
off-loaded `process_remote_frame` dispatch and the response envelope. -/
def process_frame (cfg : Config) (env : FrameEnv) (p : FramePayload) :
    Except Err FrameResponse × List Step :=
  if !cfg.browser_streaming_enabled then
    (Except.error ⟨503, "Browser streaming disabled. Please fall back to the local Flask service."⟩,
     [Step.streamingCheck])
  else if pyFalsy p.user_id || pyFalsy p.module_id then
    (Except.error ⟨400, "user_id and module_id are required."⟩,
     [Step.streamingCheck, Step.fieldValidation])
  else
    match decode_frame cfg env p.frame_base64 with
    | (Except.error e, ds) =>
      (Except.error e, Step.streamingCheck :: Step.fieldValidation :: ds)
    | (Except.ok _, ds) =>
      (Except.ok
        { success := true, frame_id := p.frame_id, user_id := p.user_id,
          module_id := p.module_id, section_id := p.section_id,
          timestamp := p.timestamp, status := env.engineStatus,
          metrics := env.engineMetrics, current_frame := env.engineFrame },
       Step.streamingCheck :: Step.fieldValidation :: (ds ++ [Step.dispatch]))

/-- Embeds the single-shot HTTP channel `ingest_frame`
(web_stream_service.py lines 182-188): it calls `process_frame` directly —
there is no rate-limiter gate on this channel. -/
def ingest_frame (cfg : Config) (env : FrameEnv) (p : FramePayload) :
    Except Err FrameResponse × List Step :=
  process_frame cfg env p

/-- Per-message reply on the WebSocket channel. -/
inductive WsReply
  | invalidPayload
  | rateLimited
  | errorClose (e : Err)
  | result (r : FrameResponse)
  deriving DecidableEq

/-- Embeds one iteration of the `websocket_frames` receive loop
(web_stream_service.py lines 222-235): parse the message
(`none` = pydantic/JSON failure → error reply), consult the per-client
limiter, and only on an allowance call `process_frame`.  An
`HTTPException` out of `process_frame` is uncaught there and closes the
socket (`errorClose`). -/
def websocket_frames_step (cfg : Config) (env : FrameEnv)
    (limiter : WebSocketLimiter) (msg : Option FramePayload) (now : ℚ) :
    WsReply × WebSocketLimiter × List Step :=
  match msg with
  | none => (WsReply.invalidPayload, limiter, [])
  | some p =>
    let r := limiter.consume now
    if r.1 = false then
      (WsReply.rateLimited, r.2, [Step.limiterCheck])
    else
      match process_frame cfg env p with
      | (Except.error e, ds) => (WsReply.errorClose e, r.2, Step.limiterCheck :: ds)
      | (Except.ok res, ds) => (WsReply.result res, r.2, Step.limiterCheck :: ds)

/-- Embeds `receive_browser_frame` (fastapi_service.py lines 478-530):
base64 + `cv2.imdecode` first (any failure → 400 "Invalid frame data"),
NO size check, then the ids are defaulted from the tracker's current
session (`payload.user_id or eye_tracker.current_user_id`, ...), the
presence check applies to the defaulted ids, and finally the frame is
dispatched to `process_remote_frame`. -/
structure TrackerState where
  current_user_id : Option String
  current_module_id : Option String
  current_section_id : Option String
  deriving DecidableEq

def receive_browser_frame (env : FrameEnv) (tracker : TrackerState)
    (p : FramePayload) : Except Err FrameResponse × List Step :=
  if !(env.imdecodeOk p.frame_base64) then
    (Except.error ⟨400, "Invalid frame data"⟩, [Step.imageDecode])
  else
    let user_id := pyOrStr p.user_id tracker.current_user_id
    let module_id := pyOrStr p.module_id tracker.current_module_id
    let section_id := pyOrStr p.section_id tracker.current_section_id
    if pyFalsy user_id || pyFalsy module_id then
      (Except.error ⟨400, "user_id and module_id are required"⟩,
       [Step.imageDecode, Step.fieldValidation])
    else
      (Except.ok
        { success := true, frame_id := p.frame_id, user_id := user_id,
          module_id := module_id, section_id := section_id,
          timestamp := p.timestamp, status := env.engineStatus,
          metrics := env.engineMetrics, current_frame := env.engineFrame },
       [Step.imageDecode, Step.fieldValidation, Step.dispatch])

/-- `pyOrStr a b` falsy forces `a` falsy. -/
lemma pyFalsy_of_pyOrStr (a b : Option String)
    (h : pyFalsy (pyOrStr a b) = true) : pyFalsy a = true := by
  unfold pyOrStr at h
  by_cases ha : pyFalsy a = true
  · exact ha
  · rw [if_neg ha] at h
    exact absurd h ha

/-- The trace of `decode_frame` is `[sizeCheck]` on an oversize frame and
`[sizeCheck, imageDecode]` otherwise. -/
lemma decode_frame_steps (cfg : Config) (env : FrameEnv) (u : String) :
    (decode_frame cfg env u).2 = [Step.sizeCheck] ∨
    (decode_frame cfg env u).2 = [Step.sizeCheck, Step.imageDecode] := by
  simp only [decode_frame]
  by_cases h1 : env.rawLen u > cfg.max_frame_kb * 1024
  · rw [if_pos h1]; left; rfl
  · rw [if_neg h1]
    by_cases h2 : env.imdecodeOk u = true
    · rw [if_pos h2]; right; rfl
    · rw [if_neg h2]; right; rfl

lemma decode_frame_no_limiter (cfg : Config) (env : FrameEnv) (u : String) :
    Step.limiterCheck ∉ (decode_frame cfg env u).2 := by
  rcases decode_frame_steps cfg env u with h | h <;> rw [h] <;> decide

/-- The single-shot pipeline never consults a rate limiter. -/
lemma process_frame_no_limiter (cfg : Config) (env : FrameEnv) (p : FramePayload) :
    Step.limiterCheck ∉ (process_frame cfg env p).2 := by
  simp only [process_frame]
  by_cases h1 : (!cfg.browser_streaming_enabled) = true
  · rw [if_pos h1]; decide
  · rw [if_neg h1]
    by_cases h2 : (pyFalsy p.user_id || pyFalsy p.module_id) = true
    · rw [if_pos h2]; decide
    · rw [if_neg h2]
      have hds := decode_frame_no_limiter cfg env p.frame_base64
      cases hdf : decode_frame cfg env p.frame_base64 with
      | mk res ds =>
        rw [hdf] at hds
        cases res with
        | error e =>
          intro hmem
          simp only [List.mem_cons] at hmem
          rcases hmem with h | h | h
          · exact absurd h (by decide)
          · exact absurd h (by decide)
          · exact hds h
        | ok u =>
          intro hmem
          simp only [List.mem_cons, List.mem_append, List.mem_singleton] at hmem
          rcases hmem with h | h | h | h
          · exact absurd h (by decide)
          · exact absurd h (by decide)
          · exact hds h
          · exact absurd h (by decide)

/-! Concrete inputs used by counterexamples and witnesses. -/

/-- Oracle under which every frame has 100 raw bytes and decodes fine. -/
def okEnv : FrameEnv :=
  { rawLen := fun _ => 100, imdecodeOk := fun _ => true,
    engineStatus := "tracking", engineMetrics := none, engineFrame := "fr" }

/-- Oracle under which every frame has 1000000 raw bytes yet decodes. -/
def hugeEnv : FrameEnv :=
  { rawLen := fun _ => 1000000, imdecodeOk := fun _ => true,
    engineStatus := "tracking", engineMetrics := none, engineFrame := "fr" }

/-- Default settings: streaming on, `max_frame_kb = 512`. -/
def okCfg : Config := { browser_streaming_enabled := true, max_frame_kb := 512 }

/-- Settings with `browser_streaming_enabled = False`. -/
def offCfg : Config := { browser_streaming_enabled := false, max_frame_kb := 512 }

/-- A payload whose `user_id` is absent. -/
def noUserPayload : FramePayload :=
  { frame_id := "f1", user_id := none, module_id := some "m1", section_id := none,
    timestamp := 0, frame_base64 := "data:image/jpeg;base64,AAAA" }

/-- A payload with both ids present. -/
def fullPayload : FramePayload :=
  { frame_id := "f2", user_id := some "u1", module_id := some "m1", section_id := none,
    timestamp := 0, frame_base64 := "data:image/jpeg;base64,BBBB" }

/-- A tracker session with current ids set. -/
def sessionTracker : TrackerState :=
  { current_user_id := some "u1", current_module_id := some "m1",
    current_section_id := none }

/-- A tracker with no current session. -/
def emptyTracker : TrackerState :=
  { current_user_id := none, current_module_id := none, current_section_id := none }

/-- C4 counterexample: on the fastapi path a payload with an absent
`user_id` is NOT rejected when the tracker has a current session — the
ids are defaulted and the frame is dispatched to the engine. -/
theorem missing_user_id_dispatched :
    pyFalsy noUserPayload.user_id = true ∧
    receive_browser_frame okEnv sessionTracker noUserPayload =
      (Except.ok
        { success := true, frame_id := "f1", user_id := some "u1",
          module_id := some "m1", section_id := none, timestamp := 0,
          status := "tracking", metrics := none, current_frame := "fr" },
       [Step.imageDecode, Step.fieldValidation, Step.dispatch]) ∧
    Step.dispatch ∈ (receive_browser_frame okEnv sessionTracker noUserPayload).2 := by
  refine ⟨rfl, rfl, ?_⟩
  have h : (receive_browser_frame okEnv sessionTracker noUserPayload).2 =
      [Step.imageDecode, Step.fieldValidation, Step.dispatch] := rfl
  rw [h]
  decide

/-- C4 (amended): a payload whose `user_id`/`module_id` stay absent even
after the fastapi path's defaulting from the tracker session is rejected
with a 400 validation error on both ingestion paths (web_stream checks the
payload fields alone, before any decode; fastapi checks the defaulted ids,
after its decode), and `process_remote_frame` is never dispatched. -/
theorem missing_ids_rejected (cfg : Config) (env : FrameEnv) (p : FramePayload)
    (tr : TrackerState)
    (hstream : cfg.browser_streaming_enabled = true)
    (hdec : env.imdecodeOk p.frame_base64 = true)
    (hmiss : (pyFalsy (pyOrStr p.user_id tr.current_user_id)
        || pyFalsy (pyOrStr p.module_id tr.current_module_id)) = true) :
    (process_frame cfg env p).1 =
      Except.error ⟨400, "user_id and module_id are required."⟩ ∧
    Step.dispatch ∉ (process_frame cfg env p).2 ∧
    Step.imageDecode ∉ (process_frame cfg env p).2 ∧
    (receive_browser_frame env tr p).1 =
      Except.error ⟨400, "user_id and module_id are required"⟩ ∧
    Step.dispatch ∉ (receive_browser_frame env tr p).2 := by
  have hmiss' : (pyFalsy p.user_id || pyFalsy p.module_id) = true := by
    rcases Bool.or_eq_true_iff.mp hmiss with h | h
    · exact Bool.or_eq_true_iff.mpr (Or.inl (pyFalsy_of_pyOrStr _ _ h))
    · exact Bool.or_eq_true_iff.mpr (Or.inr (pyFalsy_of_pyOrStr _ _ h))
  have h1 : process_frame cfg env p =
      (Except.error ⟨400, "user_id and module_id are required."⟩,
       [Step.streamingCheck, Step.fieldValidation]) := by
    simp only [process_frame]
    rw [if_neg (by simp [hstream]), if_pos hmiss']
  have h2 : receive_browser_frame env tr p =
      (Except.error ⟨400, "user_id and module_id are required"⟩,
       [Step.imageDecode, Step.fieldValidation]) := by
    simp only [receive_browser_frame]
    rw [if_neg (by simp [hdec]), if_pos hmiss]
  rw [h1, h2]
  exact ⟨rfl, by decide, by decide, rfl, by decide⟩

/-- C4 witness: a payload with no `user_id` against an idle tracker. -/
theorem missing_ids_rejected_witness :
    (okCfg.browser_streaming_enabled = true ∧
     okEnv.imdecodeOk noUserPayload.frame_base64 = true ∧
     (pyFalsy (pyOrStr noUserPayload.user_id emptyTracker.current_user_id)
       || pyFalsy (pyOrStr noUserPayload.module_id emptyTracker.current_module_id)) = true) ∧
    ((process_frame okCfg okEnv noUserPayload).1 =
        Except.error ⟨400, "user_id and module_id are required."⟩ ∧
     Step.dispatch ∉ (process_frame okCfg okEnv noUserPayload).2 ∧
     Step.imageDecode ∉ (process_frame okCfg okEnv noUserPayload).2 ∧
     (receive_browser_frame okEnv emptyTracker noUserPayload).1 =
        Except.error ⟨400, "user_id and module_id are required"⟩ ∧
     Step.dispatch ∉ (receive_browser_frame okEnv emptyTracker noUserPayload).2) :=
  ⟨⟨rfl, rfl, rfl⟩,
   missing_ids_rejected okCfg okEnv noUserPayload emptyTracker rfl rfl rfl⟩

/-- C5 counterexample: `receive_browser_frame` (fastapi path) performs no
size check — a frame of 1000000 raw bytes, far above the configured
`512 * 1024`-byte maximum, is decoded and dispatched to the engine. -/
theorem oversize_frame_passes_fastapi :
    hugeEnv.rawLen fullPayload.frame_base64 = 1000000 ∧
    1000000 > okCfg.max_frame_kb * 1024 ∧
    Step.sizeCheck ∉ (receive_browser_frame hugeEnv sessionTracker fullPayload).2 ∧
    Step.dispatch ∈ (receive_browser_frame hugeEnv sessionTracker fullPayload).2 := by
  have h : (receive_browser_frame hugeEnv sessionTracker fullPayload).2 =
      [Step.imageDecode, Step.fieldValidation, Step.dispatch] := rfl
  refine ⟨rfl, by norm_num [okCfg], ?_, ?_⟩ <;> rw [h] <;> decide

/-- C5 (amended): on the web_stream path an oversize frame (raw byte
length above `max_frame_kb * 1024`) is rejected with 413 before any
`cv2.imdecode` attempt, so no raster is produced and the engine is never
dispatched; the fastapi path, however, performs no size check at all. -/
theorem oversize_rejected_predecode (cfg : Config) (env : FrameEnv)
    (p : FramePayload)
    (hover : env.rawLen p.frame_base64 > cfg.max_frame_kb * 1024)
    (hstream : cfg.browser_streaming_enabled = true)
    (hids : (pyFalsy p.user_id || pyFalsy p.module_id) = false) :
    (decode_frame cfg env p.frame_base64).1 =
      Except.error ⟨413, "Frame exceeds size limit"⟩ ∧
    (decode_frame cfg env p.frame_base64).2 = [Step.sizeCheck] ∧
    (process_frame cfg env p).1 = Except.error ⟨413, "Frame exceeds size limit"⟩ ∧
    Step.imageDecode ∉ (process_frame cfg env p).2 ∧
    Step.dispatch ∉ (process_frame cfg env p).2 ∧
    (∀ (env' : FrameEnv) (tr' : TrackerState) (p' : FramePayload),
      Step.sizeCheck ∉ (receive_browser_frame env' tr' p').2) := by
  have hdf : decode_frame cfg env p.frame_base64 =
      (Except.error ⟨413, "Frame exceeds size limit"⟩, [Step.sizeCheck]) := by
    simp only [decode_frame]
    rw [if_pos hover]
  have hpf : process_frame cfg env p =
      (Except.error ⟨413, "Frame exceeds size limit"⟩,
       [Step.streamingCheck, Step.fieldValidation, Step.sizeCheck]) := by
    simp only [process_frame]
    rw [if_neg (by simp [hstream]), if_neg (by simp [hids]), hdf]
  refine ⟨by rw [hdf], by rw [hdf], by rw [hpf], by rw [hpf]; decide,
    by rw [hpf]; decide, ?_⟩
  intro env' tr' p'
  simp only [receive_browser_frame]
  by_cases h1 : (!env'.imdecodeOk p'.frame_base64) = true
  · rw [if_pos h1]; decide
  · rw [if_neg h1]
    by_cases h2 : (pyFalsy (pyOrStr p'.user_id tr'.current_user_id)
        || pyFalsy (pyOrStr p'.module_id tr'.current_module_id)) = true
    · rw [if_pos h2]; decide
    · rw [if_neg h2]
      show Step.sizeCheck ∉ [Step.imageDecode, Step.fieldValidation, Step.dispatch]
      decide

/-- C5 witness: a 1000000-byte frame with both ids present. -/
theorem oversize_rejected_predecode_witness :
    (hugeEnv.rawLen fullPayload.frame_base64 > okCfg.max_frame_kb * 1024 ∧
     okCfg.browser_streaming_enabled = true ∧
     (pyFalsy fullPayload.user_id || pyFalsy fullPayload.module_id) = false) ∧
    ((decode_frame okCfg hugeEnv fullPayload.frame_base64).1 =
        Except.error ⟨413, "Frame exceeds size limit"⟩ ∧
     (decode_frame okCfg hugeEnv fullPayload.frame_base64).2 = [Step.sizeCheck] ∧
     (process_frame okCfg hugeEnv fullPayload).1 =
        Except.error ⟨413, "Frame exceeds size limit"⟩ ∧
     Step.imageDecode ∉ (process_frame okCfg hugeEnv fullPayload).2 ∧
     Step.dispatch ∉ (process_frame okCfg hugeEnv fullPayload).2 ∧
     (∀ (env' : FrameEnv) (tr' : TrackerState) (p' : FramePayload),
       Step.sizeCheck ∉ (receive_browser_frame env' tr' p').2)) :=
  ⟨⟨by norm_num [hugeEnv, okCfg], rfl, rfl⟩,
   oversize_rejected_predecode okCfg hugeEnv fullPayload
     (by norm_num [hugeEnv, okCfg]) rfl rfl⟩

/-- C6 counterexample: the single-shot HTTP channel (`ingest_frame`,
hit by the browser's `fetch()`) reaches decode and engine dispatch without
any rate-limiter consultation — no `limiterCheck` ever appears in its
trace, and a valid frame is dispatched. -/
theorem http_channel_bypasses_limiter :
    Step.limiterCheck ∉ (ingest_frame okCfg okEnv fullPayload).2 ∧
    Step.dispatch ∈ (ingest_frame okCfg okEnv fullPayload).2 := by
  have h : (ingest_frame okCfg okEnv fullPayload).2 =
      [Step.streamingCheck, Step.fieldValidation, Step.sizeCheck,
       Step.imageDecode, Step.dispatch] := rfl
  rw [h]
  exact ⟨by decide, by decide⟩

/-- C6 (amended): only the persistent WebSocket channel is gated by the
rate limiter — there a denial short-circuits the message with a
rate-limit reply and no pipeline step beyond the limiter consultation
runs, and whenever the pipeline does run the limiter consultation comes
first; the single-shot HTTP channel invokes the pipeline with no limiter
gate at all. -/
theorem limiter_gates_streaming_channel_only (cfg : Config) (env : FrameEnv)
    (l : WebSocketLimiter) (p : FramePayload) (now : ℚ) :
    ((l.consume now).1 = false →
      (websocket_frames_step cfg env l (some p) now).1 = WsReply.rateLimited ∧
      (websocket_frames_step cfg env l (some p) now).2.2 = [Step.limiterCheck]) ∧
    (websocket_frames_step cfg env l (some p) now).2.2.head? =
      some Step.limiterCheck ∧
    (∀ q : FramePayload, Step.limiterCheck ∉ (ingest_frame cfg env q).2) := by
  refine ⟨?_, ?_, fun q => process_frame_no_limiter cfg env q⟩
  · intro hdeny
    simp only [websocket_frames_step]
    rw [if_pos hdeny]
    exact ⟨rfl, rfl⟩
  · by_cases hc : (l.consume now).1 = false
    · simp only [websocket_frames_step]
      rw [if_pos hc]
      rfl
    · simp only [websocket_frames_step]
      rw [if_neg hc]
      cases hpf : process_frame cfg env p with
      | mk res ds => cases res <;> rfl

/-- C6 witness: a drained limiter denies and short-circuits; the HTTP
channel has no limiter step. -/
theorem limiter_gates_streaming_channel_only_witness :
    ((WebSocketLimiter.mk 2 0 0).consume 0).1 = false ∧
    (((WebSocketLimiter.mk 2 0 0).consume 0).1 = false →
      (websocket_frames_step okCfg okEnv (WebSocketLimiter.mk 2 0 0)
        (some fullPayload) 0).1 = WsReply.rateLimited ∧
      (websocket_frames_step okCfg okEnv (WebSocketLimiter.mk 2 0 0)
        (some fullPayload) 0).2.2 = [Step.limiterCheck]) ∧
    (websocket_frames_step okCfg okEnv (WebSocketLimiter.mk 2 0 0)
        (some fullPayload) 0).2.2.head? = some Step.limiterCheck ∧
    (∀ q : FramePayload, Step.limiterCheck ∉ (ingest_frame okCfg okEnv q).2) := by
  have hdeny : ((WebSocketLimiter.mk 2 0 0).consume 0).1 = false := by
    rw [consume_deny _ _ (by norm_num)]
  exact ⟨hdeny, limiter_gates_streaming_channel_only okCfg okEnv
    (WebSocketLimiter.mk 2 0 0) fullPayload 0⟩

/-- C10: with `browser_streaming_enabled = False` every pipeline
invocation on either web_stream channel fails with the 503
service-unavailable error and performs no field validation, no decode and
no dispatch: the HTTP channel's trace is exactly `[streamingCheck]`, and
on the WebSocket channel any message that passes the limiter yields the
503 (which closes the socket) with trace
`[limiterCheck, streamingCheck]`. -/
theorem streaming_disabled_503 (cfg : Config)
    (hdis : cfg.browser_streaming_enabled = false) :
    (∀ (env : FrameEnv) (p : FramePayload),
      (ingest_frame cfg env p).1 = Except.error ⟨503,
        "Browser streaming disabled. Please fall back to the local Flask service."⟩ ∧
      (ingest_frame cfg env p).2 = [Step.streamingCheck]) ∧
    (∀ (env : FrameEnv) (l : WebSocketLimiter) (p : FramePayload) (now : ℚ),
      (l.consume now).1 = true →
      (websocket_frames_step cfg env l (some p) now).1 = WsReply.errorClose ⟨503,
        "Browser streaming disabled. Please fall back to the local Flask service."⟩ ∧
      (websocket_frames_step cfg env l (some p) now).2.2 =
        [Step.limiterCheck, Step.streamingCheck]) := by
  have hpf : ∀ (env : FrameEnv) (p : FramePayload), process_frame cfg env p =
      (Except.error ⟨503,
        "Browser streaming disabled. Please fall back to the local Flask service."⟩,
       [Step.streamingCheck]) := by
    intro env p
    simp only [process_frame]
    rw [if_pos (by simp [hdis])]
  constructor
  · intro env p
    show (process_frame cfg env p).1 = _ ∧ (process_frame cfg env p).2 = _
    rw [hpf env p]
    exact ⟨rfl, rfl⟩
  · intro env l p now hallow
    simp only [websocket_frames_step]
    rw [if_neg (by simp [hallow]), hpf env p]
    exact ⟨rfl, rfl⟩

/-- C10 witness: streaming disabled, fresh allowing limiter. -/
theorem streaming_disabled_503_witness :
    offCfg.browser_streaming_enabled = false ∧
    ((WebSocketLimiter.init 5 0).consume 0).1 = true ∧
    (ingest_frame offCfg okEnv fullPayload).1 = Except.error ⟨503,
      "Browser streaming disabled. Please fall back to the local Flask service."⟩ ∧
    (ingest_frame offCfg okEnv fullPayload).2 = [Step.streamingCheck] ∧
    (websocket_frames_step offCfg okEnv (WebSocketLimiter.init 5 0)
        (some fullPayload) 0).1 = WsReply.errorClose ⟨503,
      "Browser streaming disabled. Please fall back to the local Flask service."⟩ ∧
    (websocket_frames_step offCfg okEnv (WebSocketLimiter.init 5 0)
        (some fullPayload) 0).2.2 = [Step.limiterCheck, Step.streamingCheck] := by
  have h := streaming_disabled_503 offCfg rfl
  have hallow : ((WebSocketLimiter.init 5 0).consume 0).1 = true := by
    rw [consume_allow _ _ (by norm_num [WebSocketLimiter.init])]
  have h1 := h.1 okEnv fullPayload
  have h2 := h.2 okEnv (WebSocketLimiter.init 5 0) fullPayload 0 hallow
  exact ⟨rfl, hallow, h1.1, h1.2, h2.1, h2.2⟩

/-! ## Lifecycle orchestration (fastapi_service.py, `lifespan`,
lines 143-192)

The `lifespan` context manager is straight-line code; its embedding is the
ordered trace of the externally observable lifecycle events.  Naming
follows the spec's component names: `process_frames_background`
(5-second cadence, inspects whether tracking is enabled while the loop is
not running, logs the anomaly) is the health-monitor loop;
`broadcast_websocket_updates` (100 ms cadence, pushes the session snapshot
through the connection manager) is the state-broadcast loop. -/

inductive LifeEvent
  | engineInit
  | startHealthMonitor
  | startStateBroadcast
  | cancelHealthMonitor
  | awaitHealthMonitor
  | cancelStateBroadcast
  | awaitStateBroadcast
  | engineStopTracking
  | cameraRelease
  deriving DecidableEq

/-- The event trace of `lifespan`: startup (lines 149-158) constructs the
engine adapter, then `create_task(process_frames_background())`, then
`create_task(broadcast_websocket_updates())`; shutdown (lines 167-190)
cancels and awaits `frame_processing_task`, then cancels and awaits
`websocket_broadcast_task`, then stops tracking and releases the webcam
handle. -/
def lifespanEvents : List LifeEvent :=
  [LifeEvent.engineInit, LifeEvent.startHealthMonitor, LifeEvent.startStateBroadcast,
   LifeEvent.cancelHealthMonitor, LifeEvent.awaitHealthMonitor,
   LifeEvent.cancelStateBroadcast, LifeEvent.awaitStateBroadcast,
   LifeEvent.engineStopTracking, LifeEvent.cameraRelease]

/-- C8 counterexample: at startup the health-monitor task is created
BEFORE the state-broadcast task (fastapi_service.py lines 156-157), the
reverse of the claimed startup order. -/
theorem lifespan_startup_order_refuted :
    lifespanEvents.indexOf LifeEvent.startHealthMonitor <
      lifespanEvents.indexOf LifeEvent.startStateBroadcast ∧
    ¬ (lifespanEvents.indexOf LifeEvent.startStateBroadcast <
       lifespanEvents.indexOf LifeEvent.startHealthMonitor) := by
  constructor
  · decide
  · decide

/-- C8 (amended): the lifecycle order is: engine adapter constructed
first, then the health-monitor loop started, then the state-broadcast
loop; at shutdown the health-monitor loop is cancelled and awaited, then
the state-broadcast loop is cancelled and awaited, and only after both
have terminated is the engine stopped and its camera handle released. -/
theorem lifespan_event_order :
    lifespanEvents.indexOf LifeEvent.engineInit <
      lifespanEvents.indexOf LifeEvent.startHealthMonitor ∧
    lifespanEvents.indexOf LifeEvent.startHealthMonitor <
      lifespanEvents.indexOf LifeEvent.startStateBroadcast ∧
    lifespanEvents.indexOf LifeEvent.startStateBroadcast <
      lifespanEvents.indexOf LifeEvent.cancelHealthMonitor ∧
    lifespanEvents.indexOf LifeEvent.cancelHealthMonitor <
      lifespanEvents.indexOf LifeEvent.awaitHealthMonitor ∧
    lifespanEvents.indexOf LifeEvent.awaitHealthMonitor <
      lifespanEvents.indexOf LifeEvent.cancelStateBroadcast ∧
    lifespanEvents.indexOf LifeEvent.cancelStateBroadcast <
      lifespanEvents.indexOf LifeEvent.awaitStateBroadcast ∧
    lifespanEvents.indexOf LifeEvent.awaitStateBroadcast <
      lifespanEvents.indexOf LifeEvent.engineStopTracking ∧
    lifespanEvents.indexOf LifeEvent.engineStopTracking <
      lifespanEvents.indexOf LifeEvent.cameraRelease := by
  refine ⟨?_, ?_, ?_, ?_, ?_, ?_, ?_, ?_⟩ <;> decide
